import Mathlib

/-!
Shallow embedding of `pkg/kubelet/types/pod_update.go` from the
`peng-yq/kubernetes` repository, together with theorems checking the
natural-language specification of this file against the code.

Go pods (`*v1.Pod`) are modelled as a structure carrying exactly the fields
this file reads: the UID, the annotations map (a Go map that may be `nil`,
hence `Option` of an association list), the optional numeric priority
(`*int32`, modelled as `Option Int` since only comparisons occur), and the
priority-class name.  Go functions returning `(T, error)` are modelled with
`Except` when callers only branch on the error, and as an explicit pair when
the non-error component is also part of the contract.
-/

namespace KubeletTypes

/-- ConfigSourceAnnotationKey is the annotation key for the pod's config source,
from the constant block of `pod_update.go`. -/
def ConfigSourceAnnotationKey : String := "kubernetes.io/config.source"

/-- ConfigMirrorAnnotationKey models `v1.MirrorPodAnnotationKey`.
Modelled from the spec: the mirror-pod key is an external constant (the
`k8s.io/api/core/v1` package is not under `src/`); the spec describes it only
as "a second well-known annotation key" whose presence signals mirror
status, so the upstream value is used. No claim depends on the exact string,
only on it being a fixed key distinct from the config-source key. -/
def ConfigMirrorAnnotationKey : String := "kubernetes.io/config.mirror"

/-- FileSource identifies updates from a file. -/
def FileSource : String := "file"

/-- HTTPSource identifies updates from querying a web page. -/
def HTTPSource : String := "http"

/-- ApiserverSource identifies updates from the Kubernetes API Server. -/
def ApiserverSource : String := "api"

/-- AllSource identifies updates from all sources. -/
def AllSource : String := "*"

/-- SystemCriticalPriority models `scheduling.SystemCriticalPriority`.
Modelled from the spec: the threshold is imported from the external
`k8s.io/kubernetes/pkg/apis/scheduling` collaborator, which is not under
`src/`; the spec calls it "a fixed, process-wide constant" and places
priority 0 strictly below it. The upstream value (2 * 10^9) is used. -/
def SystemCriticalPriority : Int := 2000000000

/-- SystemNodeCritical models `scheduling.SystemNodeCritical`, the fixed
"system-node-critical" priority-class name named explicitly by the spec. -/
def SystemNodeCritical : String := "system-node-critical"

/-- Pod carries the fields of `v1.Pod` that `pod_update.go` reads:
`pod.UID`, `pod.Annotations` (a possibly-nil Go map), `pod.Spec.Priority`
(a possibly-nil `*int32`) and `pod.Spec.PriorityClassName`. -/
structure Pod where
  uid : String
  anns : Option (List (String × String))
  priority : Option Int
  priorityClassName : String
  deriving DecidableEq, Repr

/-- goQuote models Go's `%q` formatting verb for the plain (escape-free)
strings that occur here: it wraps the string in double quotes. -/
def goQuote (s : String) : String := "\"" ++ s ++ "\""

/-- getValidatedSourcesLoop is the loop body of `GetValidatedSources`,
with the `validated` accumulator made explicit.  The Go function returns
`([]string, error)`; both components are modelled, the error as an
`Option String`, because the code pairs a non-nil error with a concrete
(empty) slice. -/
def getValidatedSourcesLoop : List String → List String → List String × Option String
  | [], validated => (validated, none)
  | source :: rest, validated =>
    if source = AllSource then
      ([FileSource, HTTPSource, ApiserverSource], none)
    else if source = FileSource ∨ source = HTTPSource ∨ source = ApiserverSource then
      getValidatedSourcesLoop rest (validated ++ [source])
    else if source = "" then
      getValidatedSourcesLoop rest validated
    else
      ([], some ("unknown pod source " ++ goQuote source))

/-- GetValidatedSources gets all validated sources from the specified
sources, as in `pod_update.go`: `*` short-circuits to the full source list,
recognized names are accumulated in order, empty strings are skipped, and
any other string stops the loop with an error and an empty slice. -/
def GetValidatedSources (sources : List String) : List String × Option String :=
  getValidatedSourcesLoop sources []

/-- GetPodSource returns the source of the pod based on the annotation:
the lookup fails when the annotations map is nil or the key is absent. -/
def GetPodSource (pod : Pod) : Except String String :=
  match pod.anns with
  | some m =>
    match m.lookup ConfigSourceAnnotationKey with
    | some source => Except.ok source
    | none => Except.error ("cannot get source of pod " ++ goQuote pod.uid)
  | none => Except.error ("cannot get source of pod " ++ goQuote pod.uid)

/-- SyncPodType classifies pod updates; a Go `int`-based type. -/
abbrev SyncPodType := Int

/-- SyncPodSync is when the pod is synced to ensure desired state. -/
def SyncPodSync : SyncPodType := 0

/-- SyncPodUpdate is when the pod is updated from source. -/
def SyncPodUpdate : SyncPodType := 1

/-- SyncPodCreate is when the pod is created from source. -/
def SyncPodCreate : SyncPodType := 2

/-- SyncPodKill is when the pod should have no running containers. -/
def SyncPodKill : SyncPodType := 3

/-- SyncPodType.String renders a `SyncPodType` as in the Go `switch`:
the four named constants map to their labels and everything else to
"unknown". -/
def SyncPodType.String (sp : SyncPodType) : String :=
  if sp = SyncPodCreate then "create"
  else if sp = SyncPodUpdate then "update"
  else if sp = SyncPodSync then "sync"
  else if sp = SyncPodKill then "kill"
  else "unknown"

/-- IsMirrorPod returns true if the passed Pod is a Mirror Pod: the mirror
annotation key is present (its value is ignored). -/
def IsMirrorPod (pod : Pod) : Bool :=
  match pod.anns with
  | none => false
  | some m => (m.lookup ConfigMirrorAnnotationKey).isSome

/-- IsStaticPod returns true if the pod is a static pod: the source lookup
succeeds and the source is not the API server. -/
def IsStaticPod (pod : Pod) : Bool :=
  match GetPodSource pod with
  | Except.ok source => source != ApiserverSource
  | Except.error _ => false

/-- IsCriticalPodBasedOnPriority checks whether the given priority meets the
system-critical threshold. -/
def IsCriticalPodBasedOnPriority (priority : Int) : Bool :=
  decide (priority ≥ SystemCriticalPriority)

/-- IsCriticalPod returns true if the pod is static, or a mirror pod, or
carries an explicit priority meeting the critical threshold. -/
def IsCriticalPod (pod : Pod) : Bool :=
  if IsStaticPod pod then true
  else if IsMirrorPod pod then true
  else
    match pod.priority with
    | some p => IsCriticalPodBasedOnPriority p
    | none => false

/-- Preemptable returns true if the preemptor pod can preempt the preemptee
pod: the preemptor is critical and the preemptee is not, or both carry an
explicit priority and the preemptor's is strictly greater. Pods are
modelled as values, so the Go nil-pointer guards on the second branch are
vacuously satisfied. -/
def Preemptable (preemptor preemptee : Pod) : Bool :=
  if IsCriticalPod preemptor && !IsCriticalPod preemptee then true
  else
    match preemptor.priority, preemptee.priority with
    | some p1, some p2 => decide (p1 > p2)
    | _, _ => false

/-- IsNodeCriticalPod checks if the given pod is system-node-critical:
critical and bearing the fixed node-critical priority-class name. -/
def IsNodeCriticalPod (pod : Pod) : Bool :=
  IsCriticalPod pod && (pod.priorityClassName == SystemNodeCritical)

/-! Concrete pods used as test inputs by the theorems below. -/

/-- podStaticLow is a static pod (file source) with a low explicit priority. -/
def podStaticLow : Pod :=
  { uid := "a", anns := some [(ConfigSourceAnnotationKey, "file")],
    priority := some 5, priorityClassName := "" }

/-- podPlainHigh has no annotations map (so no determinable source) and a
priority of 10, far below the critical threshold. -/
def podPlainHigh : Pod :=
  { uid := "b", anns := none, priority := some 10, priorityClassName := "" }

/-- podApiLow comes from the API server with a low explicit priority. -/
def podApiLow : Pod :=
  { uid := "c", anns := some [(ConfigSourceAnnotationKey, "api")],
    priority := some 3, priorityClassName := "" }

/-- podMirrorZero carries the mirror annotation key (with some value) and an
explicit priority of 0. -/
def podMirrorZero : Pod :=
  { uid := "m", anns := some [(ConfigMirrorAnnotationKey, "yes")],
    priority := some 0, priorityClassName := "" }

/-- podNodeCritical is a static pod bearing the node-critical class name. -/
def podNodeCritical : Pod :=
  { uid := "n", anns := some [(ConfigSourceAnnotationKey, "file")],
    priority := none, priorityClassName := SystemNodeCritical }

/-- podBogusSource carries a config-source value outside the recognized set. -/
def podBogusSource : Pod :=
  { uid := "x", anns := some [(ConfigSourceAnnotationKey, "bogus")],
    priority := none, priorityClassName := "" }

/-- podEmptySource carries an empty-string config-source value. -/
def podEmptySource : Pod :=
  { uid := "y", anns := some [(ConfigSourceAnnotationKey, "")],
    priority := none, priorityClassName := "" }

/-! Lemmas about the validation loop, shared by the theorems on
`GetValidatedSources`. -/

/-- loop_cons_wildcard: a wildcard at the head short-circuits the loop. -/
theorem loop_cons_wildcard (rest acc : List String) :
    getValidatedSourcesLoop (AllSource :: rest) acc =
      ([FileSource, HTTPSource, ApiserverSource], none) := by
  simp [getValidatedSourcesLoop]

/-- loop_cons_recognized: a recognized concrete source name at the head is
appended to the accumulator and the loop continues. -/
theorem loop_cons_recognized (s : String) (rest acc : List String)
    (h : s = FileSource ∨ s = HTTPSource ∨ s = ApiserverSource) :
    getValidatedSourcesLoop (s :: rest) acc =
      getValidatedSourcesLoop rest (acc ++ [s]) := by
  rcases h with h | h | h <;> subst h <;>
    simp [getValidatedSourcesLoop, FileSource, HTTPSource, ApiserverSource, AllSource]

/-- loop_cons_empty: an empty string at the head is skipped. -/
theorem loop_cons_empty (rest acc : List String) :
    getValidatedSourcesLoop ("" :: rest) acc = getValidatedSourcesLoop rest acc := by
  simp [getValidatedSourcesLoop, FileSource, HTTPSource, ApiserverSource, AllSource]

/-- loop_cons_unknown: an unrecognized nonempty head stops the loop with an
empty result and the unknown-source error. -/
theorem loop_cons_unknown (s : String) (rest acc : List String)
    (h1 : s ≠ AllSource) (h2 : s ≠ FileSource) (h3 : s ≠ HTTPSource)
    (h4 : s ≠ ApiserverSource) (h5 : s ≠ "") :
    getValidatedSourcesLoop (s :: rest) acc =
      ([], some ("unknown pod source " ++ goQuote s)) := by
  simp [getValidatedSourcesLoop, h1, h2, h3, h4, h5]

/-- getValidatedSourcesLoop_ok: on inputs made only of recognized concrete
source names, the loop appends the whole input to the accumulator and
reports no error. -/
theorem getValidatedSourcesLoop_ok (sources : List String) :
    ∀ acc : List String,
    (∀ s ∈ sources, s = FileSource ∨ s = HTTPSource ∨ s = ApiserverSource) →
    getValidatedSourcesLoop sources acc = (acc ++ sources, none) := by
  induction sources with
  | nil => intro acc _; simp [getValidatedSourcesLoop]
  | cons s rest ih =>
    intro acc h
    have hs := h s (by simp)
    have hrest : ∀ x ∈ rest, x = FileSource ∨ x = HTTPSource ∨ x = ApiserverSource :=
      fun x hx => h x (by simp [hx])
    rw [loop_cons_recognized s rest acc hs, ih _ hrest]
    simp

/-- getValidatedSourcesLoop_wildcard: if every element before a wildcard is
recognized or empty, the loop reaches the wildcard and short-circuits to the
full source list, never inspecting what follows. -/
theorem getValidatedSourcesLoop_wildcard (pre : List String) :
    ∀ (post acc : List String),
    (∀ s ∈ pre, s = FileSource ∨ s = HTTPSource ∨ s = ApiserverSource ∨ s = "") →
    getValidatedSourcesLoop (pre ++ AllSource :: post) acc =
      ([FileSource, HTTPSource, ApiserverSource], none) := by
  induction pre with
  | nil => intro post acc _; exact loop_cons_wildcard post acc
  | cons s rest ih =>
    intro post acc h
    have hs := h s (by simp)
    have hrest : ∀ x ∈ rest, x = FileSource ∨ x = HTTPSource ∨ x = ApiserverSource ∨ x = "" :=
      fun x hx => h x (by simp [hx])
    rcases hs with hs | hs | hs | hs
    · rw [List.cons_append, loop_cons_recognized s _ acc (Or.inl hs)]
      exact ih _ _ hrest
    · rw [List.cons_append, loop_cons_recognized s _ acc (Or.inr (Or.inl hs))]
      exact ih _ _ hrest
    · rw [List.cons_append, loop_cons_recognized s _ acc (Or.inr (Or.inr hs))]
      exact ih _ _ hrest
    · subst hs
      rw [List.cons_append, loop_cons_empty]
      exact ih _ _ hrest

/-- getValidatedSourcesLoop_failfast: if every element before an unrecognized
entry is recognized or empty, the loop stops at that entry with an empty
result and the unknown-source error, regardless of the accumulator and of
what follows. -/
theorem getValidatedSourcesLoop_failfast (pre : List String) :
    ∀ (post acc : List String) (s : String),
    (∀ x ∈ pre, x = FileSource ∨ x = HTTPSource ∨ x = ApiserverSource ∨ x = "") →
    s ≠ AllSource → s ≠ FileSource → s ≠ HTTPSource → s ≠ ApiserverSource → s ≠ "" →
    getValidatedSourcesLoop (pre ++ s :: post) acc =
      ([], some ("unknown pod source " ++ goQuote s)) := by
  induction pre with
  | nil =>
    intro post acc s _ h1 h2 h3 h4 h5
    exact loop_cons_unknown s post acc h1 h2 h3 h4 h5
  | cons x rest ih =>
    intro post acc s h h1 h2 h3 h4 h5
    have hx := h x (by simp)
    have hrest : ∀ y ∈ rest, y = FileSource ∨ y = HTTPSource ∨ y = ApiserverSource ∨ y = "" :=
      fun y hy => h y (by simp [hy])
    rcases hx with hx | hx | hx | hx
    · rw [List.cons_append, loop_cons_recognized x _ acc (Or.inl hx)]
      exact ih _ _ _ hrest h1 h2 h3 h4 h5
    · rw [List.cons_append, loop_cons_recognized x _ acc (Or.inr (Or.inl hx))]
      exact ih _ _ _ hrest h1 h2 h3 h4 h5
    · rw [List.cons_append, loop_cons_recognized x _ acc (Or.inr (Or.inr hx))]
      exact ih _ _ _ hrest h1 h2 h3 h4 h5
    · subst hx
      rw [List.cons_append, loop_cons_empty]
      exact ih _ _ _ hrest h1 h2 h3 h4 h5

/-- getValidatedSourcesLoop_skip: deleting an empty-string element anywhere
in the input leaves the loop's behaviour unchanged. -/
theorem getValidatedSourcesLoop_skip (pre : List String) :
    ∀ (post acc : List String),
    getValidatedSourcesLoop (pre ++ "" :: post) acc =
      getValidatedSourcesLoop (pre ++ post) acc := by
  induction pre with
  | nil =>
    intro post acc
    simp only [List.nil_append]
    exact loop_cons_empty post acc
  | cons s rest ih =>
    intro post acc
    simp only [List.cons_append, getValidatedSourcesLoop]
    split
    · rfl
    · split
      · exact ih post _
      · split
        · exact ih post acc
        · rfl

/-! Theorems settling the claims. -/

/-- Claim C2, counterexample: the claim says a wildcard anywhere in the
input makes `GetValidatedSources` return `[file, http, api]` with no error,
independent of the other elements; but on `["bogus", "*"]` the loop fails
fast at `"bogus"` before reaching the wildcard, returning an empty result
and an unknown-source error. -/
theorem getValidatedSources_wildcard_counterexample :
    AllSource ∈ ["bogus", AllSource] ∧
    GetValidatedSources ["bogus", AllSource] ≠
      ([FileSource, HTTPSource, ApiserverSource], none) ∧
    GetValidatedSources ["bogus", AllSource] =
      ([], some ("unknown pod source " ++ goQuote "bogus")) := by
  refine ⟨by simp, by decide, by decide⟩

/-- Claim C2, amended: for every input sequence in which every element
preceding the first wildcard is a recognized source name or the empty
string, `GetValidatedSources` returns exactly `[file, http, api]` and no
error, and the elements after the wildcard are never inspected. -/
theorem getValidatedSources_wildcard (pre post : List String)
    (h : ∀ s ∈ pre, s = FileSource ∨ s = HTTPSource ∨ s = ApiserverSource ∨ s = "") :
    GetValidatedSources (pre ++ AllSource :: post) =
      ([FileSource, HTTPSource, ApiserverSource], none) :=
  getValidatedSourcesLoop_wildcard pre post [] h

/-- Claim C2, witness: the amended theorem at the concrete input
`["file", "", "*", "bogus"]`; the unknown entry after the wildcard is
ignored. -/
theorem getValidatedSources_wildcard_witness :
    (∀ s ∈ ["file", ""], s = FileSource ∨ s = HTTPSource ∨ s = ApiserverSource ∨ s = "") ∧
    GetValidatedSources ["file", "", "*", "bogus"] =
      ([FileSource, HTTPSource, ApiserverSource], none) :=
  ⟨by decide, getValidatedSources_wildcard ["file", ""] ["bogus"] (by decide)⟩

/-- Claim C6: on an input sequence whose every element is one of
"file", "http", "api" (no wildcard, no unknown names, no empty strings),
`GetValidatedSources` succeeds and returns the input sequence unchanged,
preserving order and duplicates. -/
theorem getValidatedSources_identity (sources : List String)
    (h : ∀ s ∈ sources, s = FileSource ∨ s = HTTPSource ∨ s = ApiserverSource) :
    GetValidatedSources sources = (sources, none) := by
  have := getValidatedSourcesLoop_ok sources [] h
  simpa [GetValidatedSources] using this

/-- Claim C6, witness: the identity theorem at the concrete input
`["file", "api", "file"]`, which keeps its order and its duplicate. -/
theorem getValidatedSources_identity_witness :
    (∀ s ∈ ["file", "api", "file"],
      s = FileSource ∨ s = HTTPSource ∨ s = ApiserverSource) ∧
    GetValidatedSources ["file", "api", "file"] = (["file", "api", "file"], none) :=
  ⟨by decide, getValidatedSources_identity ["file", "api", "file"] (by decide)⟩

/-- Claim C7: `GetValidatedSources` silently skips empty-string entries
(removing one from the input anywhere never changes the outcome); at the
first element outside the recognized set it fails with the unknown-source
error naming the offending value and an empty result, regardless of what
follows (fail-fast, no partial accumulation); and on `["bogus"]` it fails
with an empty result. -/
theorem getValidatedSources_failfast :
    (∀ pre post : List String,
      GetValidatedSources (pre ++ "" :: post) = GetValidatedSources (pre ++ post)) ∧
    (∀ (pre post : List String) (s : String),
      (∀ x ∈ pre, x = FileSource ∨ x = HTTPSource ∨ x = ApiserverSource ∨ x = "") →
      s ≠ AllSource → s ≠ FileSource → s ≠ HTTPSource → s ≠ ApiserverSource → s ≠ "" →
      GetValidatedSources (pre ++ s :: post) =
        ([], some ("unknown pod source " ++ goQuote s))) ∧
    GetValidatedSources ["bogus"] = ([], some ("unknown pod source " ++ goQuote "bogus")) := by
  refine ⟨?_, ?_, by decide⟩
  · intro pre post
    exact getValidatedSourcesLoop_skip pre post []
  · intro pre post s h h1 h2 h3 h4 h5
    exact getValidatedSourcesLoop_failfast pre post [] s h h1 h2 h3 h4 h5

/-- Claim C7, witness: the fail-fast part at the concrete input
`["file", "bogus", "api"]` and the empty-skip part at `["", "api"]`. -/
theorem getValidatedSources_failfast_witness :
    GetValidatedSources ["file", "bogus", "api"] =
      ([], some ("unknown pod source " ++ goQuote "bogus")) ∧
    GetValidatedSources ["" , "api"] = GetValidatedSources ["api"] :=
  ⟨getValidatedSources_failfast.2.1 ["file"] ["api"] "bogus" (by decide)
      (by decide) (by decide) (by decide) (by decide) (by decide),
    by simpa using getValidatedSources_failfast.1 [] ["api"]⟩

/-- Claim C1, counterexample: the claim says `Preemptable(A, B)` and
`Preemptable(B, A)` are never both true for distinct pods; but for a
critical (static) pod with priority 5 and a non-critical pod with priority
10, the criticality branch grants A over B while the numeric branch grants
B over A, so both are true. -/
theorem preemptable_not_antisymmetric :
    podStaticLow ≠ podPlainHigh ∧
    Preemptable podStaticLow podPlainHigh = true ∧
    Preemptable podPlainHigh podStaticLow = true := by
  decide

/-- Claim C1, amended: for pods with the same criticality status (both
critical or both non-critical), `Preemptable(A, B)` and `Preemptable(B, A)`
are never both true; both directions can hold simultaneously only when
exactly one pod is critical and the other, non-critical pod carries a
strictly greater numeric priority. -/
theorem preemptable_antisym_equal_criticality (A B : Pod)
    (h : IsCriticalPod A = IsCriticalPod B) :
    ¬(Preemptable A B = true ∧ Preemptable B A = true) := by
  rintro ⟨hab, hba⟩
  have h' : IsCriticalPod B = IsCriticalPod A := h.symm
  unfold Preemptable at hab hba
  rw [h, Bool.and_not_self] at hab
  rw [h', Bool.and_not_self] at hba
  simp only [Bool.false_eq_true, if_false] at hab hba
  cases hA : A.priority with
  | none => rw [hA] at hab; simp at hab
  | some p1 =>
    cases hB : B.priority with
    | none => rw [hB] at hba; simp at hba
    | some p2 =>
      rw [hA, hB] at hab hba
      simp only [decide_eq_true_eq] at hab hba
      omega

/-- Claim C1, witness: the amended antisymmetry at two concrete
non-critical pods. -/
theorem preemptable_antisym_equal_criticality_witness :
    ¬(Preemptable podPlainHigh podApiLow = true ∧
      Preemptable podApiLow podPlainHigh = true) :=
  preemptable_antisym_equal_criticality podPlainHigh podApiLow (by decide)

/-- Claim C3: `Preemptable` returns true iff the preemptor is critical and
the preemptee is not (regardless of numeric priority), or both pods carry
an explicit numeric priority and the preemptor's is strictly greater; in
every remaining case it returns false. -/
theorem preemptable_spec (A B : Pod) :
    Preemptable A B = true ↔
      ((IsCriticalPod A = true ∧ IsCriticalPod B = false) ∨
       (∃ p1 p2, A.priority = some p1 ∧ B.priority = some p2 ∧ p1 > p2)) := by
  unfold Preemptable
  cases cA : IsCriticalPod A <;> cases cB : IsCriticalPod B <;>
    cases hA : A.priority <;> cases hB : B.priority <;>
      simp [cA, cB, hA, hB]

/-- Claim C3, witness: both directions of the characterization at concrete
pods — the criticality branch fires for a static pod against a plain pod
even though the preemptor's priority is lower (5 vs 10), and a pod that is
preemptable by neither branch is rejected. -/
theorem preemptable_spec_witness :
    Preemptable podStaticLow podPlainHigh = true ∧
    Preemptable podApiLow podApiLow = false :=
  ⟨(preemptable_spec podStaticLow podPlainHigh).mpr (Or.inl ⟨by decide, by decide⟩),
    by
      cases hp : Preemptable podApiLow podApiLow
      · rfl
      · rcases (preemptable_spec podApiLow podApiLow).mp hp with ⟨h1, h2⟩ | ⟨p1, p2, e1, e2, hgt⟩
        · exact absurd (h1.symm.trans h2) (by decide)
        · rw [e1] at e2
          cases e2
          omega⟩

/-- Claim C4: `IsCriticalPod` returns true iff the pod is static, or is a
mirror pod, or carries an explicit priority meeting the system-critical
threshold; priority 0 is below the threshold, and a pod with the mirror
annotation key present and priority 0 is critical nonetheless. -/
theorem isCriticalPod_spec :
    (∀ pod : Pod, IsCriticalPod pod = true ↔
      (IsStaticPod pod = true ∨ IsMirrorPod pod = true ∨
       ∃ p, pod.priority = some p ∧ IsCriticalPodBasedOnPriority p = true)) ∧
    IsCriticalPodBasedOnPriority 0 = false ∧
    (∀ pod : Pod, IsMirrorPod pod = true → pod.priority = some 0 →
      IsCriticalPod pod = true) := by
  have hiff : ∀ pod : Pod, IsCriticalPod pod = true ↔
      (IsStaticPod pod = true ∨ IsMirrorPod pod = true ∨
       ∃ p, pod.priority = some p ∧ IsCriticalPodBasedOnPriority p = true) := by
    intro pod
    unfold IsCriticalPod
    cases hst : IsStaticPod pod <;> cases hmi : IsMirrorPod pod <;>
      cases hp : pod.priority <;> simp [hst, hmi, hp]
  refine ⟨hiff, by decide, ?_⟩
  intro pod hmi _
  exact (hiff pod).mpr (Or.inr (Or.inl hmi))

/-- Claim C4, witness: the mirror-pod scenario at a concrete pod with the
mirror annotation and priority 0, together with the threshold fact. -/
theorem isCriticalPod_spec_witness :
    IsCriticalPod podMirrorZero = true ∧ IsCriticalPodBasedOnPriority 0 = false :=
  ⟨isCriticalPod_spec.2.2 podMirrorZero (by decide) rfl, isCriticalPod_spec.2.1⟩

/-- Claim C5: `IsStaticPod` returns true iff `GetPodSource` succeeds and the
returned source is not the API-server source; when the lookup fails, it
returns false rather than propagating the error. -/
theorem isStaticPod_spec :
    (∀ pod : Pod, IsStaticPod pod = true ↔
      ∃ s, GetPodSource pod = Except.ok s ∧ s ≠ ApiserverSource) ∧
    (∀ (pod : Pod) (e : String),
      GetPodSource pod = Except.error e → IsStaticPod pod = false) := by
  constructor
  · intro pod
    unfold IsStaticPod
    cases hsrc : GetPodSource pod with
    | ok s => simp [bne_iff_ne]
    | error e => simp
  · intro pod e herr
    unfold IsStaticPod
    rw [herr]

/-- Claim C5, witness: the spec scenario at concrete pods — a pod whose
source annotation is `api` is not static, and a pod with no source
annotation fails the lookup and is not static either. -/
theorem isStaticPod_spec_witness :
    IsStaticPod podApiLow = false ∧
    GetPodSource podPlainHigh = Except.error ("cannot get source of pod " ++ goQuote "b") ∧
    IsStaticPod podPlainHigh = false := by
  refine ⟨?_, rfl, isStaticPod_spec.2 podPlainHigh _ rfl⟩
  cases hst : IsStaticPod podApiLow
  · rfl
  · rcases (isStaticPod_spec.1 podApiLow).mp hst with ⟨s, hok, hne⟩
    cases hok
    exact absurd rfl hne

/-- Claim C8: a pod whose config-source annotation is present with any value
other than "api" — including the empty string or a name outside the
recognized source set — is classified static: the annotation value is never
validated against the closed source set. -/
theorem isStaticPod_unvalidated (pod : Pod) (m : List (String × String)) (v : String)
    (hm : pod.anns = some m) (hv : m.lookup ConfigSourceAnnotationKey = some v)
    (hne : v ≠ ApiserverSource) : IsStaticPod pod = true := by
  unfold IsStaticPod GetPodSource
  rw [hm]
  simp only [hv]
  simpa [bne_iff_ne] using hne

/-- Claim C8, witness: a pod with source value "bogus" (outside the
recognized set) and a pod with source value "" are both static. -/
theorem isStaticPod_unvalidated_witness :
    IsStaticPod podBogusSource = true ∧ IsStaticPod podEmptySource = true :=
  ⟨isStaticPod_unvalidated podBogusSource _ "bogus" rfl rfl (by decide),
    isStaticPod_unvalidated podEmptySource _ "" rfl rfl (by decide)⟩

/-- Claim C9: `IsNodeCriticalPod` returns true iff the pod is critical and
its priority-class name is the fixed "system-node-critical" name; hence
node-critical implies critical for every pod, and the reverse implication
fails (a critical pod with another class name exists). -/
theorem isNodeCriticalPod_spec :
    (∀ pod : Pod, IsNodeCriticalPod pod = true ↔
      (IsCriticalPod pod = true ∧ pod.priorityClassName = SystemNodeCritical)) ∧
    (∀ pod : Pod, IsNodeCriticalPod pod = true → IsCriticalPod pod = true) ∧
    (∃ pod : Pod, IsCriticalPod pod = true ∧ IsNodeCriticalPod pod = false) := by
  have hiff : ∀ pod : Pod, IsNodeCriticalPod pod = true ↔
      (IsCriticalPod pod = true ∧ pod.priorityClassName = SystemNodeCritical) := by
    intro pod
    unfold IsNodeCriticalPod
    simp [Bool.and_eq_true, beq_iff_eq]
  exact ⟨hiff, fun pod h => ((hiff pod).mp h).1, ⟨podStaticLow, by decide, by decide⟩⟩

/-- Claim C9, witness: the implication at a concrete node-critical pod. -/
theorem isNodeCriticalPod_spec_witness :
    IsNodeCriticalPod podNodeCritical = true ∧ IsCriticalPod podNodeCritical = true :=
  ⟨by decide, isNodeCriticalPod_spec.2.1 podNodeCritical (by decide)⟩

/-- Claim C10: the `String` rendering of `SyncPodType` is total — the four
named constants map to "sync", "update", "create" and "kill", and every
other value maps to "unknown". -/
theorem syncPodTypeString_total :
    SyncPodType.String SyncPodSync = "sync" ∧
    SyncPodType.String SyncPodUpdate = "update" ∧
    SyncPodType.String SyncPodCreate = "create" ∧
    SyncPodType.String SyncPodKill = "kill" ∧
    (∀ sp : SyncPodType, sp ≠ SyncPodSync → sp ≠ SyncPodUpdate →
      sp ≠ SyncPodCreate → sp ≠ SyncPodKill → SyncPodType.String sp = "unknown") := by
  refine ⟨by decide, by decide, by decide, by decide, ?_⟩
  intro sp h0 h1 h2 h3
  unfold SyncPodType.String
  simp [h0, h1, h2, h3]

/-- Claim C10, witness: the default branch at the unrecognized value 7. -/
theorem syncPodTypeString_total_witness :
    SyncPodType.String 7 = "unknown" :=
  syncPodTypeString_total.2.2.2.2 7 (by decide) (by decide) (by decide) (by decide)

end KubeletTypes
